import Mathlib

/-!
Verification of the MCP tutorial servers (code_server.py, document_server.py,
database_server.py): a shallow embedding of the three `call_tool` dispatchers,
the two `read_resource` resolvers, and the supporting domain state, together
with proofs about the claims of the specification.

Modelling conventions:
* Python argument dictionaries become association lists `List (String × Value)`;
  `arguments.get(k)` returns `Value.vnull` for an absent key, mirroring Python's
  `None` default, and Python truthiness becomes `Value.truthy`.
* File systems and in-memory stores become association lists keyed by strings.
* A handler invocation bumps a `calls` counter in the server state (after the
  argument-presence checks, exactly where control enters the handler body), so
  that "the handler was never invoked" is the statement that the state is
  returned unchanged, counter included.
* `raise ValueError(msg)` propagating out of `call_tool` (a protocol-level
  fault) becomes `Dispatched.raised msg st`; a normal return of content blocks
  becomes `Dispatched.ok blocks st`.
* External collaborators (the SQL engine behind `cursor.execute`, the Python
  interpreter behind `subprocess.run`) are oracles passed as parameters; the
  parts of their behaviour fixed by the repository (the `users` schema made by
  `init_database`, `subprocess.run`'s timeout contract) are modelled explicitly
  and documented at their definitions.
-/

/-- A JSON-ish argument value as it arrives in the `arguments` dict of a tool
call.  `vnull` plays the role of Python `None` (JSON null). -/
inductive Value where
  | vstr : String → Value
  | vint : Int → Value
  | vnull : Value
deriving DecidableEq, Repr

/-- Python truthiness for the values above: `None`, `""` and `0` are falsy. -/
def Value.truthy : Value → Bool
  | .vstr s => s != ""
  | .vint n => n != 0
  | .vnull => false

/-- How the value renders inside a Python f-string. -/
def Value.pyRepr : Value → String
  | .vstr s => s
  | .vint n => toString n
  | .vnull => "None"

/-- `arguments.get(key)`: an absent key surfaces as `None`, i.e. `vnull`. -/
def pyGet (args : List (String × Value)) (k : String) : Value :=
  match args.lookup k with
  | some v => v
  | none => .vnull

/-- One text content block (`TextContent(type="text", text=...)`; the `type`
tag is the constant `"text"` in every handler, so only the text is kept). -/
structure TextContent where
  text : String
deriving DecidableEq, Repr

/-- Outcome of one `call_tool` dispatch over server state `σ`:
`ok blocks st'` is a normal return, `raised msg st'` is a `ValueError`
propagating to the protocol layer (the state at the moment of the raise is
carried along so that "no side effect" is expressible). -/
inductive Dispatched (σ : Type) where
  | ok : List TextContent → σ → Dispatched σ
  | raised : String → σ → Dispatched σ
deriving DecidableEq

/-! ### String helpers mirroring the Python primitives used by the servers -/

/-- `s.startswith(pat)` (Python) as a list check on the character data. -/
def strStartsWith (s pat : String) : Bool :=
  pat.data.isPrefixOf s.data

/-- `pat in text` (Python substring containment), on character lists. -/
def containsSub (pat : List Char) : List Char → Bool
  | [] => pat.isEmpty
  | t :: ts => pat.isPrefixOf (t :: ts) || containsSub pat ts

/-- `needle in hay` for strings. -/
def pyIn (needle hay : String) : Bool :=
  containsSub needle.data hay.data

/-- `s.lower()`: characterwise lowercasing (over the character data, so that
it evaluates by kernel reduction). -/
def pyLower (s : String) : String := ⟨s.data.map Char.toLower⟩

/-- `s.upper()`: characterwise uppercasing. -/
def pyUpper (s : String) : String := ⟨s.data.map Char.toUpper⟩

/-- `s.strip()`: drop leading and trailing whitespace (ASCII whitespace, which
covers every statement the claims exercise). -/
def pyStrip (s : String) : String :=
  ⟨((s.data.dropWhile Char.isWhitespace).reverse.dropWhile Char.isWhitespace).reverse⟩

/-- `s[n:]`: drop the first `n` characters. -/
def pyDrop (s : String) (n : Nat) : String := ⟨s.data.drop n⟩

/-- Auxiliary for `str.count`: counts non-overlapping occurrences of `pat`
(non-empty) in `text`, skipping `skip` further positions after a match so the
next search resumes past the matched span, exactly as Python's `str.count`. -/
def countOccAux (pat : List Char) : List Char → Nat → Nat
  | [], _ => 0
  | _ :: ts, Nat.succ k => countOccAux pat ts k
  | t :: ts, 0 =>
    if pat.isPrefixOf (t :: ts) then 1 + countOccAux pat ts (pat.length - 1)
    else countOccAux pat ts 0

/-- `text.count(pat)` (Python): non-overlapping occurrence count; an empty
pattern counts `len(text) + 1` as in Python. -/
def pyCount (text pat : String) : Nat :=
  if pat.data.isEmpty then text.length + 1 else countOccAux pat.data text.data 0

/-- Insert-or-replace for an association list, keeping the position of an
existing key (Python `dict` assignment keeps insertion order). -/
def upsert (m : List (String × String)) (k v : String) : List (String × String) :=
  match m with
  | [] => [(k, v)]
  | (k', v') :: rest => if k' = k then (k, v) :: rest else (k', v') :: upsert rest k v

/-- Remove a key from an association list (`dict.pop(k, None)` / `unlink`). -/
def removeKey (m : List (String × String)) (k : String) : List (String × String) :=
  match m with
  | [] => []
  | (k', v') :: rest => if k' = k then rest else (k', v') :: removeKey rest k

/-! ## Code server (`src/servers/code_server.py`) -/

/-- Behaviour of the operating-system process spawned for a code string:
its wall-clock duration and, if it completes, its captured streams and exit
code.  An interpretation `String → SpawnedProcess` is the oracle standing for
the Python interpreter invoked by `subprocess.run([sys.executable, "-c", code])`. -/
structure SpawnedProcess where
  duration : Nat
  stdout : String
  stderr : String
  exitcode : Int
deriving DecidableEq, Repr

/-- What `subprocess.run` reports back: completion or `TimeoutExpired`. -/
inductive RunOutcome where
  | timedOut : RunOutcome
  | completed : String → String → Int → RunOutcome
deriving DecidableEq, Repr

/-- Models `subprocess.run([...], capture_output=True, text=True, timeout=t)`.
Per the library's documented contract: if the child runs longer than `t`
seconds it is killed and waited for, and `TimeoutExpired` is raised only after
the child has terminated.  The second component records whether the spawned
process is still running when the call returns — `false` on every path. -/
def subprocessRunLimited (t : Nat) (p : SpawnedProcess) : RunOutcome × Bool :=
  if t < p.duration then (.timedOut, false)
  else (.completed p.stdout p.stderr p.exitcode, false)

/-- State owned by the code server: the file system it touches (path → text),
the in-memory `code_store` (snippet name → code), and the instrumentation
counter of handler invocations. -/
structure CodeState where
  files : List (String × String)
  code_store : List (String × String)
  calls : Nat
deriving DecidableEq, Repr

/-- Handler entry instrumentation: control passed the argument checks. -/
def CodeState.bump (s : CodeState) : CodeState := { s with calls := s.calls + 1 }

/-- Tool names declared by the code server's `list_tools`. -/
def codeToolNames : List String :=
  ["read_file", "write_file", "execute_code", "save_code_snippet", "list_code_snippets"]

/-- The `required` lists of the code server's declared input schemas. -/
def codeRequiredKeys : String → List String
  | "read_file" => ["file_path"]
  | "write_file" => ["file_path", "content"]
  | "execute_code" => ["code"]
  | "save_code_snippet" => ["name", "code"]
  | _ => []

/-- `read_resource` of the code server: strip `code://`, look up the snippet;
both a missing snippet and an unrecognized scheme fall through to the single
`raise ValueError(f"Resource not found: {uri}")` at the end of the function. -/
def codeReadResource (s : CodeState) (uri : String) : Except String String :=
  if strStartsWith uri "code://" then
    match s.code_store.lookup (pyDrop uri 7) with
    | some code => .ok code
    | none => .error ("Resource not found: " ++ uri)
  else .error ("Resource not found: " ++ uri)

/-- `call_tool` of the code server.  `interp` is the oracle giving the
behaviour of the spawned interpreter process for each code string.  Non-string
arguments reaching a `Path(...)`/`write_text`/`subprocess.run` call raise a
`TypeError` that the surrounding `except Exception` turns into an in-band
error block; the exact `str(e)` of those type errors is abbreviated. -/
def codeCallTool (interp : String → SpawnedProcess) (name : String)
    (args : List (String × Value)) (s : CodeState) : Dispatched CodeState :=
  if name = "read_file" then
    let v := pyGet args "file_path"
    if !v.truthy then .raised "file_path is required" s
    else
      let s' := s.bump
      match v with
      | .vstr p =>
        match s'.files.lookup p with
        | none => .ok [⟨"Error: File not found: " ++ p⟩] s'
        | some content => .ok [⟨"File contents of " ++ p ++ ":\n\n" ++ content⟩] s'
      | _ => .ok [⟨"Error reading file: argument of unsupported type"⟩] s'
  else if name = "write_file" then
    let vp := pyGet args "file_path"
    let vc := pyGet args "content"
    if !vp.truthy || vc == Value.vnull then .raised "file_path and content are required" s
    else
      let s' := s.bump
      match vp, vc with
      | .vstr p, .vstr c =>
        .ok [⟨"Successfully wrote " ++ toString c.length ++ " characters to " ++ p⟩]
          { s' with files := upsert s'.files p c }
      | _, _ => .ok [⟨"Error writing file: argument of unsupported type"⟩] s'
  else if name = "execute_code" then
    let v := pyGet args "code"
    if !v.truthy then .raised "code is required" s
    else
      let s' := s.bump
      match v with
      | .vstr code =>
        match (subprocessRunLimited 10 (interp code)).1 with
        | .timedOut => .ok [⟨"Error: Code execution timed out (max 10 seconds)"⟩] s'
        | .completed out err rc =>
          let output := out ++ (if err != "" then "\n[stderr]\n" ++ err else "")
          let output :=
            if rc != 0 then "[Error - exit code " ++ toString rc ++ "]\n" ++ output
            else output
          .ok [⟨"Execution result:\n" ++ output⟩] s'
      | _ => .ok [⟨"Error executing code: argument of unsupported type"⟩] s'
  else if name = "save_code_snippet" then
    let vn := pyGet args "name"
    let vc := pyGet args "code"
    if !vn.truthy || !vc.truthy then .raised "name and code are required" s
    else
      let s' := s.bump
      .ok [⟨"Code snippet '" ++ vn.pyRepr ++ "' saved successfully"⟩]
        { s' with code_store := upsert s'.code_store vn.pyRepr vc.pyRepr }
  else if name = "list_code_snippets" then
    let s' := s.bump
    if s'.code_store.isEmpty then .ok [⟨"No code snippets saved yet"⟩] s'
    else
      .ok [⟨"Saved code snippets:\n" ++
        String.intercalate "\n" (s'.code_store.map (fun kv => "- " ++ kv.1))⟩] s'
  else .raised ("Unknown tool: " ++ name) s

/-! ## Document server (`src/servers/document_server.py`) -/

/-- State owned by the document server: the `documents/` directory as a map
from document stem to file text (every entry is a `<stem>.txt` file), the
in-memory `document_index` from stem to lowercased text, and the handler
invocation counter. -/
structure DocState where
  files : List (String × String)
  index : List (String × String)
  calls : Nat
deriving DecidableEq, Repr

/-- Handler entry instrumentation. -/
def DocState.bump (s : DocState) : DocState := { s with calls := s.calls + 1 }

/-- `index_document(name, content)`: store the lowercased content. -/
def indexDocument (st : DocState) (name content : String) : DocState :=
  { st with index := upsert st.index name (pyLower content) }

/-- Tool names declared by the document server's `list_tools`. -/
def docToolNames : List String :=
  ["create_document", "read_document", "list_documents", "search_documents",
   "append_to_document", "delete_document"]

/-- The `required` lists of the document server's declared input schemas. -/
def docRequiredKeys : String → List String
  | "create_document" => ["name", "content"]
  | "read_document" => ["name"]
  | "search_documents" => ["query"]
  | "append_to_document" => ["name", "content"]
  | "delete_document" => ["name"]
  | _ => []

/-- `read_resource` of the document server: a missing document under a
recognized `doc://` scheme and an unrecognized scheme raise two differently
worded errors. -/
def docReadResource (st : DocState) (uri : String) : Except String String :=
  if strStartsWith uri "doc://" then
    match st.files.lookup (pyDrop uri 6) with
    | some c => .ok c
    | none => .error ("Document not found: " ++ pyDrop uri 6)
  else .error ("Unknown resource URI: " ++ uri)

/-- Insertion into an (name, count) list sorted by name, mirroring Python's
`sorted` on (str, int) tuples for lists whose names are distinct. -/
def insertByName (x : String × Nat) : List (String × Nat) → List (String × Nat)
  | [] => [x]
  | y :: ys => if x.1 ≤ y.1 then x :: y :: ys else y :: insertByName x ys

/-- `sorted(matches)` for match lists with distinct names. -/
def sortByName : List (String × Nat) → List (String × Nat)
  | [] => []
  | x :: xs => insertByName x (sortByName xs)

/-- Insertion sort for plain strings (`sorted(docs)` over file names). -/
def insertStr (x : String) : List String → List String
  | [] => [x]
  | y :: ys => if x ≤ y then x :: y :: ys else y :: insertStr x ys

/-- `sorted` for plain string lists. -/
def sortStrings : List String → List String
  | [] => []
  | x :: xs => insertStr x (sortStrings xs)

/-- The second pass of `search_documents`: walk the `*.txt` files, and for any
stem not yet in the (live, mutating) index, read and lowercase its text, record
a match with its count when the lowered query occurs, and index the file. -/
def searchFilesPass (ql : String) :
    List (String × String) → List (String × String) → List (String × Nat) × List (String × String)
  | [], idx => ([], idx)
  | (nm, c) :: rest, idx =>
    if (idx.lookup nm).isSome then searchFilesPass ql rest idx
    else
      let cl := pyLower c
      if pyIn ql cl then
        let r := searchFilesPass ql rest (upsert idx nm cl)
        ((nm, pyCount cl ql) :: r.1, r.2)
      else searchFilesPass ql rest idx

/-- The match-collection part of the `search_documents` handler: matches from
the in-memory index (already lowercased), then from not-yet-indexed files,
returning the matches in encounter order together with the updated index. -/
def searchDocs (q : String) (st : DocState) : List (String × Nat) × List (String × String) :=
  let ql := pyLower q
  let m1 := st.index.filterMap
    (fun nc => if pyIn ql nc.2 then some (nc.1, pyCount nc.2 ql) else none)
  let r := searchFilesPass ql st.files st.index
  (m1 ++ r.1, r.2)

/-- Rendering of one search match line. -/
def renderMatch (m : String × Nat) : String :=
  "- " ++ m.1 ++ " (" ++ toString m.2 ++ " occurrence(s))"

/-- `call_tool` of the document server.  A non-string `content` reaching
`write_text` raises a `TypeError` that the `except Exception` turns into an
in-band error block; the exact `str(e)` of that path is abbreviated. -/
def docCallTool (name : String) (args : List (String × Value)) (st : DocState) :
    Dispatched DocState :=
  if name = "create_document" then
    let vn := pyGet args "name"
    let vc := pyGet args "content"
    if !vn.truthy || !vc.truthy then .raised "name and content are required" st
    else
      let st' := st.bump
      let nm := vn.pyRepr
      match vc with
      | .vstr c =>
        .ok [⟨"Document '" ++ nm ++ "' created successfully (" ++
              toString c.length ++ " characters)"⟩]
          (indexDocument { st' with files := upsert st'.files nm c } nm c)
      | _ => .ok [⟨"Error creating document: argument of unsupported type"⟩] st'
  else if name = "read_document" then
    let vn := pyGet args "name"
    if !vn.truthy then .raised "name is required" st
    else
      let st' := st.bump
      let nm := vn.pyRepr
      match st'.files.lookup nm with
      | none => .ok [⟨"Document '" ++ nm ++ "' not found"⟩] st'
      | some c => .ok [⟨"Document '" ++ nm ++ "':\n\n" ++ c⟩] st'
  else if name = "list_documents" then
    let st' := st.bump
    if st'.files.isEmpty then .ok [⟨"No documents found"⟩] st'
    else
      .ok [⟨"Available documents (" ++ toString st'.files.length ++ "):\n" ++
        String.intercalate "\n"
          ((sortStrings (st'.files.map Prod.fst)).map (fun nm => "- " ++ nm))⟩] st'
  else if name = "search_documents" then
    let vq := pyGet args "query"
    if !vq.truthy then .raised "query is required" st
    else
      let st' := st.bump
      match vq with
      | .vstr q =>
        let r := searchDocs q st'
        let st'' := { st' with index := r.2 }
        if r.1.isEmpty then
          .ok [⟨"No documents found containing '" ++ q ++ "'"⟩] st''
        else
          .ok [⟨"Search results for '" ++ q ++ "':\n" ++
            String.intercalate "\n" ((sortByName r.1).map renderMatch)⟩] st''
      | _ => .ok [⟨"Error searching documents: argument of unsupported type"⟩] st'
  else if name = "append_to_document" then
    let vn := pyGet args "name"
    let vc := pyGet args "content"
    if !vn.truthy || !vc.truthy then .raised "name and content are required" st
    else
      let st' := st.bump
      let nm := vn.pyRepr
      match st'.files.lookup nm with
      | none =>
        .ok [⟨"Document '" ++ nm ++ "' not found. Use create_document first."⟩] st'
      | some existing =>
        match vc with
        | .vstr c =>
          let newContent := existing ++ "\n" ++ c
          .ok [⟨"Appended " ++ toString c.length ++ " characters to '" ++ nm ++ "'"⟩]
            (indexDocument { st' with files := upsert st'.files nm newContent } nm newContent)
        | _ => .ok [⟨"Error appending to document: argument of unsupported type"⟩] st'
  else if name = "delete_document" then
    let vn := pyGet args "name"
    if !vn.truthy then .raised "name is required" st
    else
      let st' := st.bump
      let nm := vn.pyRepr
      match st'.files.lookup nm with
      | none => .ok [⟨"Document '" ++ nm ++ "' not found"⟩] st'
      | some _ =>
        .ok [⟨"Document '" ++ nm ++ "' deleted successfully"⟩]
          { st' with files := removeKey st'.files nm, index := removeKey st'.index nm }
  else .raised ("Unknown tool: " ++ name) st

/-! ## Database server (`src/servers/database_server.py`) -/

/-- One column of a table as `PRAGMA table_info` reports it:
name, declared type, and the NOT NULL flag. -/
structure ColInfo where
  cname : String
  ctype : String
  notNull : Bool
deriving DecidableEq, Repr

/-- One row of the `users` table.  `init_database` declares
`name TEXT NOT NULL, email TEXT UNIQUE NOT NULL, age INTEGER`; the values are
kept as the dynamically-typed `Value`s SQLite would store. -/
structure UserRow where
  id : Nat
  uname : Value
  email : Value
  age : Value
deriving DecidableEq, Repr

/-- State owned by the database server: the `users` table rows, the next
AUTOINCREMENT id for `users`, the catalog of tables with their columns (what
`sqlite_master` / `PRAGMA table_info` expose), and the handler counter.
The `products` table's rows are not touched by any claim and are left out. -/
structure DBState where
  users : List UserRow
  nextUserId : Nat
  schema : List (String × List ColInfo)
  calls : Nat
deriving DecidableEq, Repr

/-- Handler entry instrumentation. -/
def DBState.bump (db : DBState) : DBState := { db with calls := db.calls + 1 }

/-- The column lists `init_database` creates. -/
def usersCols : List ColInfo :=
  [⟨"id", "INTEGER", false⟩, ⟨"name", "TEXT", true⟩, ⟨"email", "TEXT", true⟩,
   ⟨"age", "INTEGER", false⟩, ⟨"created_at", "TIMESTAMP", false⟩]

/-- Columns of the `products` table from `init_database`. -/
def productsCols : List ColInfo :=
  [⟨"id", "INTEGER", false⟩, ⟨"name", "TEXT", true⟩, ⟨"price", "REAL", true⟩,
   ⟨"category", "TEXT", false⟩, ⟨"stock", "INTEGER", false⟩]

/-- The database state after `init_database` on a fresh file: both tables
created and the three seed users inserted (ids 1..3, next id 4). -/
def initDB : DBState :=
  { users :=
      [⟨1, .vstr "Alice Johnson", .vstr "alice@example.com", .vint 30⟩,
       ⟨2, .vstr "Bob Smith", .vstr "bob@example.com", .vint 25⟩,
       ⟨3, .vstr "Charlie Brown", .vstr "charlie@example.com", .vint 35⟩],
    nextUserId := 4,
    schema := [("users", usersCols), ("products", productsCols)],
    calls := 0 }

/-- The oracle standing for SQLite's `cursor.execute(query)` on a statement the
verb gate let through: it either fails with an error message (after which the
handler rolls back, leaving the pre-call state), or yields the post-execution
state, the fetched rows (already rendered as the dict strings `json.dumps`
receives), and `cursor.rowcount`. -/
def SqlEngine : Type := String → DBState → Except String (DBState × List String × Int)

/-- The in-band rejection message of the `execute_query` verb gate. -/
def sqlGateMsg : String := "Error: Only SELECT, INSERT, UPDATE, DELETE queries are allowed"

/-- The verb gate of `execute_query`: the trimmed, uppercased statement must
start with one of the four allowed verbs. -/
def queryAllowed (q : String) : Bool :=
  ["SELECT", "INSERT", "UPDATE", "DELETE"].any
    (fun cmd => strStartsWith (pyUpper (pyStrip q)) cmd)

/-- Rendering of the fetched rows; stands for `json.dumps(results, indent=2)`,
whose exact layout comes from the external json library and is abbreviated to
joining the pre-rendered row dicts. -/
def renderRows (rows : List String) : String := String.intercalate ",\n" rows

/-- Rendering of one user row; stands for `json.dumps(dict(row), indent=2)`
in `get_user`, abbreviated for the same reason as `renderRows`. -/
def renderUserJson (r : UserRow) : String :=
  "id: " ++ toString r.id ++ ", name: " ++ r.uname.pyRepr ++
  ", email: " ++ r.email.pyRepr ++ ", age: " ++ r.age.pyRepr

/-- Tool names declared by the database server's `list_tools`. -/
def dbToolNames : List String :=
  ["execute_query", "list_tables", "describe_table", "insert_user", "get_user"]

/-- The `required` lists of the database server's declared input schemas. -/
def dbRequiredKeys : String → List String
  | "execute_query" => ["query"]
  | "describe_table" => ["table_name"]
  | "insert_user" => ["name", "email", "age"]
  | "get_user" => ["email"]
  | _ => []

/-- Rendering of one `describe_table` column line. -/
def renderCol (c : ColInfo) : String :=
  "- " ++ c.cname ++ " (" ++ c.ctype ++ ")" ++ (if c.notNull then " NOT NULL" else "")

/-- `call_tool` of the database server.  `engine` is the oracle for
`cursor.execute` on free-form queries; the `insert_user` and `get_user`
branches touch only the `users` table, whose behaviour is fixed by the schema
`init_database` declares (UNIQUE NOT NULL email), and is modelled directly:
an INSERT with an already-present email raises `sqlite3.IntegrityError` with
message `UNIQUE constraint failed: users.email` and inserts nothing. -/
def dbCallTool (engine : SqlEngine) (name : String) (args : List (String × Value))
    (db : DBState) : Dispatched DBState :=
  if name = "execute_query" then
    let v := pyGet args "query"
    if !v.truthy then .raised "query is required" db
    else
      let db' := db.bump
      match v with
      | .vstr q =>
        if !queryAllowed q then .ok [⟨sqlGateMsg⟩] db'
        else
          match engine q db' with
          | .error m => .ok [⟨"Error executing query: " ++ m⟩] db'
          | .ok (dbNew, rows, rowcount) =>
            if strStartsWith (pyUpper (pyStrip q)) "SELECT" then
              if rows.isEmpty then
                .ok [⟨"Query executed successfully, but returned no results"⟩] dbNew
              else
                .ok [⟨"Query results (" ++ toString rows.length ++ " rows):\n" ++
                      renderRows rows⟩] dbNew
            else
              .ok [⟨"Query executed successfully. Rows affected: " ++
                    toString rowcount⟩] dbNew
      | _ => .ok [⟨"Error executing query: argument of unsupported type"⟩] db'
  else if name = "list_tables" then
    let db' := db.bump
    .ok [⟨"Database tables:\n" ++
      String.intercalate "\n" ((db'.schema.map Prod.fst).map (fun t => "- " ++ t))⟩] db'
  else if name = "describe_table" then
    let v := pyGet args "table_name"
    if !v.truthy then .raised "table_name is required" db
    else
      let db' := db.bump
      let tn := v.pyRepr
      match db'.schema.lookup tn with
      | none => .ok [⟨"Table '" ++ tn ++ "' not found"⟩] db'
      | some cols =>
        if cols.isEmpty then .ok [⟨"Table '" ++ tn ++ "' not found"⟩] db'
        else
          .ok [⟨"Table '" ++ tn ++ "' schema:\n" ++
            String.intercalate "\n" (cols.map renderCol)⟩] db'
  else if name = "insert_user" then
    let vn := pyGet args "name"
    let ve := pyGet args "email"
    let va := pyGet args "age"
    if !(vn.truthy && ve.truthy && !(va == Value.vnull)) then
      .raised "name, email, and age are required" db
    else
      let db' := db.bump
      if db'.users.any (fun r => r.email == ve) then
        .ok [⟨"Error: UNIQUE constraint failed: users.email"⟩] db'
      else
        .ok [⟨"User '" ++ vn.pyRepr ++ "' inserted successfully with ID " ++
              toString db'.nextUserId⟩]
          { db' with users := db'.users ++ [⟨db'.nextUserId, vn, ve, va⟩],
                     nextUserId := db'.nextUserId + 1 }
  else if name = "get_user" then
    let ve := pyGet args "email"
    if !ve.truthy then .raised "email is required" db
    else
      let db' := db.bump
      match db'.users.find? (fun r => r.email == ve) with
      | some r => .ok [⟨"User found:\n" ++ renderUserJson r⟩] db'
      | none => .ok [⟨"No user found with email: " ++ ve.pyRepr⟩] db'
  else .raised ("Unknown tool: " ++ name) db

/-! ## Remaining definitions: concrete oracles and the spec's error taxonomy -/

/-- An interpretation in which every code string spawns a process that would
run for 15 seconds (e.g. `import time; time.sleep(15)`) producing no output. -/
def interpSleep15 : String → SpawnedProcess := fun _ => ⟨15, "", "", 0⟩

/-- An interpretation in which every code string finishes immediately. -/
def interpQuick : String → SpawnedProcess := fun _ => ⟨0, "", "", 0⟩

/-- A SQL engine that fails every statement with a fixed SQLite error text. -/
def engineErr : SqlEngine := fun _ _ => .error "no such table: missing"

/-- A SQL engine that executes every statement as a no-op returning no rows. -/
def engineNoop : SqlEngine := fun _ db => .ok (db, [], 0)

/-- The spec's two resource-resolution failure kinds. -/
inductive ResErrKind where
  | resourceNotFound : ResErrKind
  | unknownScheme : ResErrKind
deriving DecidableEq, Repr

/-- Modelled from the spec: the spec names the failure conditions
`ResourceNotFound` and `UnknownResourceScheme`, which exist in the code only as
the wording of the raised `ValueError`.  This classifies a raised message into
the spec's kinds by its leading template: "Document not found: " and
"Resource not found: " report a missing item, "Unknown resource URI: " reports
an unrecognized scheme prefix. -/
def resErrKindOf (m : String) : Option ResErrKind :=
  if strStartsWith m "Document not found: " then some .resourceNotFound
  else if strStartsWith m "Resource not found: " then some .resourceNotFound
  else if strStartsWith m "Unknown resource URI: " then some .unknownScheme
  else none

/-! ## Helper lemmas -/

/-- A list is a prefix of itself followed by anything. -/
theorem isPrefixOf_append_self : ∀ (l t : List Char), l.isPrefixOf (l ++ t) = true
  | [], _ => by simp [List.isPrefixOf]
  | c :: cs, t => by simp [List.isPrefixOf, isPrefixOf_append_self cs t]

/-- Whether `p` is a prefix of `a ++ b` only depends on `a` when `p` is no
longer than `a`. -/
theorem isPrefixOf_append_of_le : ∀ (p a b : List Char), p.length ≤ a.length →
    p.isPrefixOf (a ++ b) = p.isPrefixOf a
  | [], _, _, _ => by simp [List.isPrefixOf]
  | _ :: _, [], _, h => by simp at h
  | c :: p', a :: a', b, h => by
    simp only [List.cons_append, List.isPrefixOf, List.append_eq]
    rw [isPrefixOf_append_of_le p' a' b (by simpa using h)]

/-- A string starts with itself, whatever follows. -/
theorem strStartsWith_append_self (pre suf : String) :
    strStartsWith (pre ++ suf) pre = true := by
  show pre.data.isPrefixOf (pre.data ++ suf.data) = true
  exact isPrefixOf_append_self pre.data suf.data

/-- Starting with a pattern no longer than the literal head only depends on
the head. -/
theorem strStartsWith_append_eq (pre suf pat : String) (h : pat.length ≤ pre.length) :
    strStartsWith (pre ++ suf) pat = strStartsWith pre pat := by
  show pat.data.isPrefixOf (pre.data ++ suf.data) = pat.data.isPrefixOf pre.data
  exact isPrefixOf_append_of_le pat.data pre.data suf.data h

/-- A string that extends `pre` cannot equal a string not starting with `pre`. -/
theorem strNe_of_not_startsWith (pre suf t : String)
    (h : strStartsWith t pre = false) : pre ++ suf ≠ t := by
  intro he
  rw [← he, strStartsWith_append_self] at h
  simp at h

/-- Looking up the key just inserted or replaced yields the new value. -/
theorem lookup_upsert : ∀ (m : List (String × String)) (k v : String),
    (upsert m k v).lookup k = some v
  | [], k, v => by simp [upsert, List.lookup]
  | (k', v') :: rest, k, v => by
    by_cases hk : k' = k
    · simp [upsert, hk, List.lookup]
    · have hb : (k == k') = false := by simp [Ne.symm hk]
      simp only [upsert, if_neg hk, List.lookup, hb]
      exact lookup_upsert rest k v

/-! ## Claims -/

/-- C1: for every declared tool of each of the three servers and every
argument map in which some key marked `required` in the tool's declared input
schema is absent or null, `call_tool` raises a protocol-level `ValueError`
before the handler body runs: the dispatch is `raised` and the state —
invocation counter included — is returned exactly as it came in, so the
handler observes no call and domain state is unchanged. -/
theorem c1_missing_required_argument_raises
    (interp : String → SpawnedProcess) (engine : SqlEngine)
    (nm : String) (args : List (String × Value)) :
    (∀ cs : CodeState, nm ∈ codeToolNames →
      (∃ k ∈ codeRequiredKeys nm, pyGet args k = Value.vnull) →
      ∃ m, codeCallTool interp nm args cs = .raised m cs)
    ∧ (∀ db : DBState, nm ∈ dbToolNames →
      (∃ k ∈ dbRequiredKeys nm, pyGet args k = Value.vnull) →
      ∃ m, dbCallTool engine nm args db = .raised m db)
    ∧ (∀ ds : DocState, nm ∈ docToolNames →
      (∃ k ∈ docRequiredKeys nm, pyGet args k = Value.vnull) →
      ∃ m, docCallTool nm args ds = .raised m ds) := by
  refine ⟨?_, ?_, ?_⟩
  · intro cs hmem hreq
    simp only [codeToolNames, List.mem_cons, List.mem_singleton, List.not_mem_nil,
      or_false] at hmem
    rcases hmem with rfl | rfl | rfl | rfl | rfl
    · obtain ⟨k, hk, hnull⟩ := hreq
      rw [show codeRequiredKeys "read_file" = ["file_path"] from rfl] at hk
      simp at hk; subst hk
      exact ⟨"file_path is required", by simp [codeCallTool, hnull, Value.truthy]⟩
    · obtain ⟨k, hk, hnull⟩ := hreq
      rw [show codeRequiredKeys "write_file" = ["file_path", "content"] from rfl] at hk
      simp at hk
      rcases hk with rfl | rfl
      · exact ⟨"file_path and content are required",
          by simp [codeCallTool, hnull, Value.truthy]⟩
      · exact ⟨"file_path and content are required",
          by simp [codeCallTool, hnull, Value.truthy]⟩
    · obtain ⟨k, hk, hnull⟩ := hreq
      rw [show codeRequiredKeys "execute_code" = ["code"] from rfl] at hk
      simp at hk; subst hk
      exact ⟨"code is required", by simp [codeCallTool, hnull, Value.truthy]⟩
    · obtain ⟨k, hk, hnull⟩ := hreq
      rw [show codeRequiredKeys "save_code_snippet" = ["name", "code"] from rfl] at hk
      simp at hk
      rcases hk with rfl | rfl
      · exact ⟨"name and code are required", by simp [codeCallTool, hnull, Value.truthy]⟩
      · exact ⟨"name and code are required", by simp [codeCallTool, hnull, Value.truthy]⟩
    · obtain ⟨k, hk, _⟩ := hreq
      rw [show codeRequiredKeys "list_code_snippets" = [] from rfl] at hk
      simp at hk
  · intro db hmem hreq
    simp only [dbToolNames, List.mem_cons, List.mem_singleton, List.not_mem_nil,
      or_false] at hmem
    rcases hmem with rfl | rfl | rfl | rfl | rfl
    · obtain ⟨k, hk, hnull⟩ := hreq
      rw [show dbRequiredKeys "execute_query" = ["query"] from rfl] at hk
      simp at hk; subst hk
      exact ⟨"query is required", by simp [dbCallTool, hnull, Value.truthy]⟩
    · obtain ⟨k, hk, _⟩ := hreq
      rw [show dbRequiredKeys "list_tables" = [] from rfl] at hk
      simp at hk
    · obtain ⟨k, hk, hnull⟩ := hreq
      rw [show dbRequiredKeys "describe_table" = ["table_name"] from rfl] at hk
      simp at hk; subst hk
      exact ⟨"table_name is required", by simp [dbCallTool, hnull, Value.truthy]⟩
    · obtain ⟨k, hk, hnull⟩ := hreq
      rw [show dbRequiredKeys "insert_user" = ["name", "email", "age"] from rfl] at hk
      simp at hk
      rcases hk with rfl | rfl | rfl
      · exact ⟨"name, email, and age are required",
          by simp [dbCallTool, hnull, Value.truthy]⟩
      · exact ⟨"name, email, and age are required",
          by simp [dbCallTool, hnull, Value.truthy]⟩
      · exact ⟨"name, email, and age are required",
          by simp [dbCallTool, hnull, Value.truthy]⟩
    · obtain ⟨k, hk, hnull⟩ := hreq
      rw [show dbRequiredKeys "get_user" = ["email"] from rfl] at hk
      simp at hk; subst hk
      exact ⟨"email is required", by simp [dbCallTool, hnull, Value.truthy]⟩
  · intro ds hmem hreq
    simp only [docToolNames, List.mem_cons, List.mem_singleton, List.not_mem_nil,
      or_false] at hmem
    rcases hmem with rfl | rfl | rfl | rfl | rfl | rfl
    · obtain ⟨k, hk, hnull⟩ := hreq
      rw [show docRequiredKeys "create_document" = ["name", "content"] from rfl] at hk
      simp at hk
      rcases hk with rfl | rfl
      · exact ⟨"name and content are required",
          by simp [docCallTool, hnull, Value.truthy]⟩
      · exact ⟨"name and content are required",
          by simp [docCallTool, hnull, Value.truthy]⟩
    · obtain ⟨k, hk, hnull⟩ := hreq
      rw [show docRequiredKeys "read_document" = ["name"] from rfl] at hk
      simp at hk; subst hk
      exact ⟨"name is required", by simp [docCallTool, hnull, Value.truthy]⟩
    · obtain ⟨k, hk, _⟩ := hreq
      rw [show docRequiredKeys "list_documents" = [] from rfl] at hk
      simp at hk
    · obtain ⟨k, hk, hnull⟩ := hreq
      rw [show docRequiredKeys "search_documents" = ["query"] from rfl] at hk
      simp at hk; subst hk
      exact ⟨"query is required", by simp [docCallTool, hnull, Value.truthy]⟩
    · obtain ⟨k, hk, hnull⟩ := hreq
      rw [show docRequiredKeys "append_to_document" = ["name", "content"] from rfl] at hk
      simp at hk
      rcases hk with rfl | rfl
      · exact ⟨"name and content are required",
          by simp [docCallTool, hnull, Value.truthy]⟩
      · exact ⟨"name and content are required",
          by simp [docCallTool, hnull, Value.truthy]⟩
    · obtain ⟨k, hk, hnull⟩ := hreq
      rw [show docRequiredKeys "delete_document" = ["name"] from rfl] at hk
      simp at hk; subst hk
      exact ⟨"name is required", by simp [docCallTool, hnull, Value.truthy]⟩

/-- Witness for C1 at a concrete input: dispatching `read_file` with an empty
argument map on a fresh code server raises and leaves the state untouched. -/
theorem c1_missing_required_argument_raises_witness :
    ∃ m, codeCallTool interpQuick "read_file" [] ⟨[], [], 0⟩
      = .raised m (⟨[], [], 0⟩ : CodeState) :=
  (c1_missing_required_argument_raises interpQuick engineNoop "read_file" []).1
    ⟨[], [], 0⟩ (by decide) ⟨"file_path", by decide, rfl⟩

/-- C9: for every tool name not present in a server's declared catalog,
`call_tool` raises the protocol-level `ValueError "Unknown tool: ..."` and
returns the state exactly as it came in — no handler is invoked (the
invocation counter is unchanged) and no domain state is modified. -/
theorem c9_unknown_tool_raises (interp : String → SpawnedProcess)
    (engine : SqlEngine) (nm : String) (args : List (String × Value)) :
    (∀ cs : CodeState, nm ∉ codeToolNames →
      codeCallTool interp nm args cs = .raised ("Unknown tool: " ++ nm) cs)
    ∧ (∀ db : DBState, nm ∉ dbToolNames →
      dbCallTool engine nm args db = .raised ("Unknown tool: " ++ nm) db)
    ∧ (∀ ds : DocState, nm ∉ docToolNames →
      docCallTool nm args ds = .raised ("Unknown tool: " ++ nm) ds) := by
  refine ⟨?_, ?_, ?_⟩
  · intro cs h
    obtain ⟨h1, h2, h3, h4, h5⟩ :
        nm ≠ "read_file" ∧ nm ≠ "write_file" ∧ nm ≠ "execute_code" ∧
        nm ≠ "save_code_snippet" ∧ nm ≠ "list_code_snippets" := by
      simpa [codeToolNames, not_or] using h
    simp [codeCallTool, h1, h2, h3, h4, h5]
  · intro db h
    obtain ⟨h1, h2, h3, h4, h5⟩ :
        nm ≠ "execute_query" ∧ nm ≠ "list_tables" ∧ nm ≠ "describe_table" ∧
        nm ≠ "insert_user" ∧ nm ≠ "get_user" := by
      simpa [dbToolNames, not_or] using h
    simp [dbCallTool, h1, h2, h3, h4, h5]
  · intro ds h
    obtain ⟨h1, h2, h3, h4, h5, h6⟩ :
        nm ≠ "create_document" ∧ nm ≠ "read_document" ∧ nm ≠ "list_documents" ∧
        nm ≠ "search_documents" ∧ nm ≠ "append_to_document" ∧
        nm ≠ "delete_document" := by
      simpa [docToolNames, not_or] using h
    simp [docCallTool, h1, h2, h3, h4, h5, h6]

/-- Witness for C9 at a concrete input: the name `"frobnicate"` is declared by
no server; each dispatcher raises and leaves its state untouched. -/
theorem c9_unknown_tool_raises_witness :
    codeCallTool interpQuick "frobnicate" [] ⟨[], [], 0⟩
      = .raised ("Unknown tool: " ++ "frobnicate") (⟨[], [], 0⟩ : CodeState)
    ∧ dbCallTool engineNoop "frobnicate" [] initDB
      = .raised ("Unknown tool: " ++ "frobnicate") initDB
    ∧ docCallTool "frobnicate" [] ⟨[], [], 0⟩
      = .raised ("Unknown tool: " ++ "frobnicate") (⟨[], [], 0⟩ : DocState) :=
  ⟨(c9_unknown_tool_raises interpQuick engineNoop "frobnicate" []).1 ⟨[], [], 0⟩
      (by decide),
   (c9_unknown_tool_raises interpQuick engineNoop "frobnicate" []).2.1 initDB
      (by decide),
   (c9_unknown_tool_raises interpQuick engineNoop "frobnicate" []).2.2 ⟨[], [], 0⟩
      (by decide)⟩

/-- C3 counterexample: the claim says `read_file(p)` after `write_file(p, c)`
returns exactly `c` and `read_document(n)` after `create_document(n, c)`
returns exactly `c`.  At `p = "f"`, `c = "hi"` (and `n = "a"`, `c = "x"`) the
dispatch instead returns a single block whose text wraps the content in a
header, which is not equal to `c`. -/
theorem c3_roundtrip_cex :
    codeCallTool interpQuick "write_file"
        [("file_path", Value.vstr "f"), ("content", Value.vstr "hi")] ⟨[], [], 0⟩
      = .ok [⟨"Successfully wrote 2 characters to f"⟩] ⟨[("f", "hi")], [], 1⟩
    ∧ codeCallTool interpQuick "read_file" [("file_path", Value.vstr "f")]
        ⟨[("f", "hi")], [], 1⟩
      = .ok [⟨"File contents of f:\n\nhi"⟩] ⟨[("f", "hi")], [], 2⟩
    ∧ "File contents of f:\n\nhi" ≠ "hi"
    ∧ docCallTool "create_document"
        [("name", Value.vstr "a"), ("content", Value.vstr "x")] ⟨[], [], 0⟩
      = .ok [⟨"Document 'a' created successfully (1 characters)"⟩]
          ⟨[("a", "x")], [("a", "x")], 1⟩
    ∧ docCallTool "read_document" [("name", Value.vstr "a")]
        ⟨[("a", "x")], [("a", "x")], 1⟩
      = .ok [⟨"Document 'a':\n\nx"⟩] ⟨[("a", "x")], [("a", "x")], 2⟩
    ∧ "Document 'a':\n\nx" ≠ "x" := by
  decide

/-- C3 amended: `write_file(p, c)` stores exactly `c` at `p`, and a subsequent
`read_file(p)` reads back exactly `c`, returning it wrapped in the fixed
header `"File contents of p:\n\n"`; `create_document(n, c)` (for non-empty
`c`, which the presence check demands) stores exactly `c`, and a subsequent
`read_document(n)` reads back exactly `c` wrapped in `"Document 'n':\n\n"`. -/
theorem c3_roundtrip_amended :
    (∀ (interp : String → SpawnedProcess) (p c : String) (cs : CodeState),
      p ≠ "" →
      ∃ cs₁,
        codeCallTool interp "write_file"
            [("file_path", Value.vstr p), ("content", Value.vstr c)] cs
          = .ok [⟨"Successfully wrote " ++ toString c.length ++
                  " characters to " ++ p⟩] cs₁
        ∧ cs₁.files.lookup p = some c
        ∧ codeCallTool interp "read_file" [("file_path", Value.vstr p)] cs₁
            = .ok [⟨"File contents of " ++ p ++ ":\n\n" ++ c⟩] cs₁.bump)
    ∧ (∀ (n c : String) (ds : DocState), n ≠ "" → c ≠ "" →
      ∃ ds₁,
        docCallTool "create_document"
            [("name", Value.vstr n), ("content", Value.vstr c)] ds
          = .ok [⟨"Document '" ++ n ++ "' created successfully (" ++
                  toString c.length ++ " characters)"⟩] ds₁
        ∧ ds₁.files.lookup n = some c
        ∧ docCallTool "read_document" [("name", Value.vstr n)] ds₁
            = .ok [⟨"Document '" ++ n ++ "':\n\n" ++ c⟩] ds₁.bump) := by
  constructor
  · intro interp p c cs hp
    refine ⟨⟨upsert cs.files p c, cs.code_store, cs.calls + 1⟩, ?_, ?_, ?_⟩
    · simp [codeCallTool, pyGet, List.lookup, Value.truthy, hp, CodeState.bump]
    · exact lookup_upsert cs.files p c
    · simp [codeCallTool, pyGet, List.lookup, Value.truthy, hp, CodeState.bump,
        lookup_upsert]
  · intro n c ds hn hc
    refine ⟨⟨upsert ds.files n c, upsert ds.index n (pyLower c), ds.calls + 1⟩, ?_, ?_, ?_⟩
    · simp [docCallTool, pyGet, List.lookup, Value.truthy, hn, hc, DocState.bump,
        indexDocument, Value.pyRepr]
    · exact lookup_upsert ds.files n c
    · simp [docCallTool, pyGet, List.lookup, Value.truthy, hn, DocState.bump,
        Value.pyRepr, lookup_upsert]

/-- Witness for the amended C3 at concrete inputs. -/
theorem c3_roundtrip_amended_witness :
    (∃ cs₁,
      codeCallTool interpQuick "write_file"
          [("file_path", Value.vstr "f"), ("content", Value.vstr "hi")] ⟨[], [], 0⟩
        = .ok [⟨"Successfully wrote " ++ toString "hi".length ++
                " characters to " ++ "f"⟩] cs₁
      ∧ cs₁.files.lookup "f" = some "hi"
      ∧ codeCallTool interpQuick "read_file" [("file_path", Value.vstr "f")] cs₁
          = .ok [⟨"File contents of " ++ "f" ++ ":\n\n" ++ "hi"⟩] cs₁.bump)
    ∧ (∃ ds₁,
      docCallTool "create_document"
          [("name", Value.vstr "a"), ("content", Value.vstr "x")] ⟨[], [], 0⟩
        = .ok [⟨"Document '" ++ "a" ++ "' created successfully (" ++
                toString "x".length ++ " characters)"⟩] ds₁
      ∧ ds₁.files.lookup "a" = some "x"
      ∧ docCallTool "read_document" [("name", Value.vstr "a")] ds₁
          = .ok [⟨"Document '" ++ "a" ++ "':\n\n" ++ "x"⟩] ds₁.bump) :=
  ⟨c3_roundtrip_amended.1 interpQuick "f" "hi" ⟨[], [], 0⟩ (by decide),
   c3_roundtrip_amended.2 "a" "x" ⟨[], [], 0⟩ (by decide) (by decide)⟩

/-- C10 counterexample: the claim says `append_to_document(n, c)` on an
existing document with content `s` sets the content to `s + "\n" + c` for
every `c`.  At `c = ""` (and existing content `"x"`), the truthiness check
treats the empty content as missing and raises instead, leaving the content
`"x"`, not `"x" ++ "\n" ++ ""`. -/
theorem c10_append_empty_content_cex :
    docCallTool "append_to_document"
        [("name", Value.vstr "d"), ("content", Value.vstr "")]
        ⟨[("d", "x")], [("d", "x")], 0⟩
      = .raised "name and content are required" ⟨[("d", "x")], [("d", "x")], 0⟩
    ∧ (⟨[("d", "x")], [("d", "x")], 0⟩ : DocState).files.lookup "d" = some "x"
    ∧ some "x" ≠ some ("x" ++ "\n" ++ "") := by
  decide

/-- C10 amended: for a non-empty name and non-empty content (empty strings are
rejected by the presence check as missing), `append_to_document(n, c)` on an
existing document whose content is `s` sets the document's content to
`s ++ "\n" ++ c` — a newline separator is always inserted — and updates the
search index entry for `n` to the lowercased new full content. -/
theorem c10_append_newline_amended (n c s0 : String) (st : DocState)
    (hn : n ≠ "") (hc : c ≠ "") (hex : st.files.lookup n = some s0) :
    docCallTool "append_to_document"
        [("name", Value.vstr n), ("content", Value.vstr c)] st
      = .ok [⟨"Appended " ++ toString c.length ++ " characters to '" ++ n ++ "'"⟩]
          ⟨upsert st.files n (s0 ++ "\n" ++ c),
           upsert st.index n (pyLower (s0 ++ "\n" ++ c)), st.calls + 1⟩
    ∧ (upsert st.files n (s0 ++ "\n" ++ c)).lookup n = some (s0 ++ "\n" ++ c)
    ∧ (upsert st.index n (pyLower (s0 ++ "\n" ++ c))).lookup n
        = some (pyLower (s0 ++ "\n" ++ c)) := by
  refine ⟨?_, lookup_upsert _ _ _, lookup_upsert _ _ _⟩
  simp [docCallTool, pyGet, List.lookup, Value.truthy, hn, hc, hex,
    DocState.bump, indexDocument, Value.pyRepr]

/-- Witness for the amended C10 at a concrete input. -/
theorem c10_append_newline_amended_witness :
    docCallTool "append_to_document"
        [("name", Value.vstr "d"), ("content", Value.vstr "more")]
        ⟨[("d", "x")], [("d", "x")], 0⟩
      = .ok [⟨"Appended " ++ toString "more".length ++ " characters to '" ++ "d" ++ "'"⟩]
          ⟨upsert [("d", "x")] "d" ("x" ++ "\n" ++ "more"),
           upsert [("d", "x")] "d" (pyLower ("x" ++ "\n" ++ "more")), 0 + 1⟩
    ∧ (upsert [("d", "x")] "d" ("x" ++ "\n" ++ "more")).lookup "d"
        = some ("x" ++ "\n" ++ "more")
    ∧ (upsert [("d", "x")] "d" (pyLower ("x" ++ "\n" ++ "more"))).lookup "d"
        = some (pyLower ("x" ++ "\n" ++ "more")) :=
  c10_append_newline_amended "d" "more" "x" ⟨[("d", "x")], [("d", "x")], 0⟩
    (by decide) (by decide) (by decide)

/-- C8: the spec's search scenario, checked end to end.  After
`create_document("a", "hello world")` and `create_document("b", "goodbye")`,
`search_documents("hello")` returns only document `a` with occurrence count 1;
the uppercased query `"HELLO"` finds the same match (the matching is
case-insensitive); and on a store holding a file `c` (`"Hello There"`) that is
not yet in the index, the search lazily indexes `c` under its lowercased text
and still reports the occurrence count from that lowercased text. -/
theorem c8_search_documents_scenario :
    docCallTool "create_document"
        [("name", Value.vstr "a"), ("content", Value.vstr "hello world")]
        ⟨[], [], 0⟩
      = .ok [⟨"Document 'a' created successfully (11 characters)"⟩]
          ⟨[("a", "hello world")], [("a", "hello world")], 1⟩
    ∧ docCallTool "create_document"
        [("name", Value.vstr "b"), ("content", Value.vstr "goodbye")]
        ⟨[("a", "hello world")], [("a", "hello world")], 1⟩
      = .ok [⟨"Document 'b' created successfully (7 characters)"⟩]
          ⟨[("a", "hello world"), ("b", "goodbye")],
           [("a", "hello world"), ("b", "goodbye")], 2⟩
    ∧ docCallTool "search_documents" [("query", Value.vstr "hello")]
        ⟨[("a", "hello world"), ("b", "goodbye")],
         [("a", "hello world"), ("b", "goodbye")], 2⟩
      = .ok [⟨"Search results for 'hello':\n- a (1 occurrence(s))"⟩]
          ⟨[("a", "hello world"), ("b", "goodbye")],
           [("a", "hello world"), ("b", "goodbye")], 3⟩
    ∧ (searchDocs "hello"
        ⟨[("a", "hello world"), ("b", "goodbye")],
         [("a", "hello world"), ("b", "goodbye")], 3⟩).1 = [("a", 1)]
    ∧ docCallTool "search_documents" [("query", Value.vstr "HELLO")]
        ⟨[("a", "hello world"), ("b", "goodbye")],
         [("a", "hello world"), ("b", "goodbye")], 2⟩
      = .ok [⟨"Search results for 'HELLO':\n- a (1 occurrence(s))"⟩]
          ⟨[("a", "hello world"), ("b", "goodbye")],
           [("a", "hello world"), ("b", "goodbye")], 3⟩
    ∧ docCallTool "search_documents" [("query", Value.vstr "hello")]
        ⟨[("c", "Hello There")], [], 0⟩
      = .ok [⟨"Search results for 'hello':\n- c (1 occurrence(s))"⟩]
          ⟨[("c", "Hello There")], [("c", "hello there")], 1⟩ := by
  decide

/-- C7: for every `execute_code` call whose spawned process would run past the
10-second wall-clock ceiling (e.g. a sleep of 15 seconds), the dispatch
returns the in-band timeout failure text `"Error: Code execution timed out
(max 10 seconds)"` — which is not a successful-completion response, since
every successful completion's text starts with `"Execution result:\n"` — and,
per the modelled `subprocess.run` contract, the spawned process is no longer
running when the call returns. -/
theorem c7_execute_code_timeout (interp : String → SpawnedProcess)
    (code : String) (cs : CodeState)
    (hc : code ≠ "") (hdur : 10 < (interp code).duration) :
    codeCallTool interp "execute_code" [("code", Value.vstr code)] cs
      = .ok [⟨"Error: Code execution timed out (max 10 seconds)"⟩] cs.bump
    ∧ (∀ out : String,
        "Error: Code execution timed out (max 10 seconds)"
          ≠ "Execution result:\n" ++ out)
    ∧ (subprocessRunLimited 10 (interp code)).2 = false := by
  refine ⟨?_, ?_, ?_⟩
  · simp [codeCallTool, pyGet, List.lookup, Value.truthy, hc,
      subprocessRunLimited, hdur]
  · intro out
    exact Ne.symm (strNe_of_not_startsWith "Execution result:\n" out
      "Error: Code execution timed out (max 10 seconds)" (by decide))
  · simp [subprocessRunLimited, hdur]

/-- Witness for C7: a code string whose process sleeps 15 seconds. -/
theorem c7_execute_code_timeout_witness :
    codeCallTool interpSleep15 "execute_code"
        [("code", Value.vstr "import time\ntime.sleep(15)")] ⟨[], [], 0⟩
      = .ok [⟨"Error: Code execution timed out (max 10 seconds)"⟩]
          (⟨[], [], 0⟩ : CodeState).bump
    ∧ (∀ out : String,
        "Error: Code execution timed out (max 10 seconds)"
          ≠ "Execution result:\n" ++ out)
    ∧ (subprocessRunLimited 10 (interpSleep15 "import time\ntime.sleep(15)")).2
        = false :=
  c7_execute_code_timeout interpSleep15 "import time\ntime.sleep(15)"
    ⟨[], [], 0⟩ (by decide) (by decide)

/-- C5: on a database whose `users` table holds no row with email `em`,
`insert_user(nm, em, ag)` succeeds (reporting the AUTOINCREMENT id), adding
one row; calling it again with the same email returns the in-band
integrity-violation block `"Error: UNIQUE constraint failed: users.email"` —
a successful dispatch, not a protocol fault — and the failed second call
leaves the row count (indeed the whole `users` list) unchanged. -/
theorem c5_insert_user_duplicate_email (e : SqlEngine) (nm em : String)
    (ag : Int) (db : DBState) (hnm : nm ≠ "") (hem : em ≠ "")
    (hfresh : db.users.any (fun r => r.email == Value.vstr em) = false) :
    ∃ db₁,
      dbCallTool e "insert_user"
          [("name", Value.vstr nm), ("email", Value.vstr em),
           ("age", Value.vint ag)] db
        = .ok [⟨"User '" ++ nm ++ "' inserted successfully with ID " ++
                toString db.nextUserId⟩] db₁
      ∧ db₁.users.length = db.users.length + 1
      ∧ dbCallTool e "insert_user"
          [("name", Value.vstr nm), ("email", Value.vstr em),
           ("age", Value.vint ag)] db₁
        = .ok [⟨"Error: UNIQUE constraint failed: users.email"⟩] db₁.bump
      ∧ db₁.bump.users = db₁.users := by
  refine ⟨⟨db.users ++ [⟨db.nextUserId, Value.vstr nm, Value.vstr em, Value.vint ag⟩],
    db.nextUserId + 1, db.schema, db.calls + 1⟩, ?_, ?_, ?_, rfl⟩
  · simp [dbCallTool, pyGet, List.lookup, Value.truthy, hnm, hem, DBState.bump,
      hfresh, Value.pyRepr]
  · simp
  · simp [dbCallTool, pyGet, List.lookup, Value.truthy, hnm, hem, DBState.bump,
      List.any_append, hfresh]

/-- Witness for C5: the spec's `insert_user("Dana", "dana@example.com", 41)`
scenario on the seeded database. -/
theorem c5_insert_user_duplicate_email_witness :
    ∃ db₁,
      dbCallTool engineNoop "insert_user"
          [("name", Value.vstr "Dana"), ("email", Value.vstr "dana@example.com"),
           ("age", Value.vint 41)] initDB
        = .ok [⟨"User '" ++ "Dana" ++ "' inserted successfully with ID " ++
                toString initDB.nextUserId⟩] db₁
      ∧ db₁.users.length = initDB.users.length + 1
      ∧ dbCallTool engineNoop "insert_user"
          [("name", Value.vstr "Dana"), ("email", Value.vstr "dana@example.com"),
           ("age", Value.vint 41)] db₁
        = .ok [⟨"Error: UNIQUE constraint failed: users.email"⟩] db₁.bump
      ∧ db₁.bump.users = db₁.users :=
  c5_insert_user_duplicate_email engineNoop "Dana" "dana@example.com" 41 initDB
    (by decide) (by decide) (by decide)

/-- C4 amended: for every non-empty query string (an empty query never reaches
the verb gate: the presence check raises the protocol-level `"query is
required"` fault first, see the counterexample) and any SQL engine behaviour,
`execute_query` returns the in-band rejection `"Error: Only SELECT, INSERT,
UPDATE, DELETE queries are allowed"` with the domain state untouched exactly
when the uppercased, stripped text does not start with one of the four allowed
verbs; in the rejected case nothing is executed (the dispatch is the same
under any two engines); and in particular `execute_query("DROP TABLE users")`
is rejected and the table catalog — hence the `users` table — is unchanged. -/
theorem c4_execute_query_gate (e₁ e₂ : SqlEngine) (q : String) (db : DBState)
    (hq : q ≠ "") :
    (dbCallTool e₁ "execute_query" [("query", Value.vstr q)] db
        = .ok [⟨sqlGateMsg⟩] db.bump ↔ queryAllowed q = false)
    ∧ (queryAllowed q = false →
        dbCallTool e₁ "execute_query" [("query", Value.vstr q)] db
          = dbCallTool e₂ "execute_query" [("query", Value.vstr q)] db)
    ∧ dbCallTool e₁ "execute_query" [("query", Value.vstr "DROP TABLE users")] db
        = .ok [⟨sqlGateMsg⟩] db.bump
    ∧ db.bump.users = db.users ∧ db.bump.schema = db.schema := by
  refine ⟨⟨?_, ?_⟩, ?_, ?_, rfl, rfl⟩
  · intro hres
    cases hqb : queryAllowed q
    · rfl
    · exfalso
      cases heng : e₁ q db.bump with
      | error m =>
        simp [dbCallTool, pyGet, List.lookup, Value.truthy, hq, hqb, heng] at hres
        exact strNe_of_not_startsWith "Error executing query: " m sqlGateMsg
          (by decide) hres
      | ok trip =>
        obtain ⟨dbN, rows, rc⟩ := trip
        simp [dbCallTool, pyGet, List.lookup, Value.truthy, hq, hqb, heng] at hres
        split at hres
        · split at hres
          · simp only [Dispatched.ok.injEq, List.cons.injEq,
              TextContent.mk.injEq] at hres
            exact absurd hres.1.1
              (by decide :
                ¬ ("Query executed successfully, but returned no results" = sqlGateMsg))
          · simp only [Dispatched.ok.injEq, List.cons.injEq,
              TextContent.mk.injEq, String.append_assoc] at hres
            exact strNe_of_not_startsWith "Query results ("
              (toString rows.length ++ (" rows):\n" ++ renderRows rows)) sqlGateMsg
              (by decide) hres.1.1
        · simp only [Dispatched.ok.injEq, List.cons.injEq,
            TextContent.mk.injEq] at hres
          exact strNe_of_not_startsWith "Query executed successfully. Rows affected: "
            (toString rc) sqlGateMsg (by decide) hres.1.1
  · intro hqb
    simp [dbCallTool, pyGet, List.lookup, Value.truthy, hq, hqb]
  · intro hqb
    simp [dbCallTool, pyGet, List.lookup, Value.truthy, hq, hqb]
  · simp [dbCallTool, pyGet, List.lookup, Value.truthy,
      show queryAllowed "DROP TABLE users" = false from by decide]

/-- Witness for C4 on the seeded database: `DROP TABLE users` is rejected
in-band and the catalog still holds the `users` table. -/
theorem c4_execute_query_gate_witness :
    dbCallTool engineNoop "execute_query"
        [("query", Value.vstr "DROP TABLE users")] initDB
      = .ok [⟨sqlGateMsg⟩] initDB.bump
    ∧ initDB.bump.users = initDB.users ∧ initDB.bump.schema = initDB.schema :=
  (c4_execute_query_gate engineNoop engineErr "DROP TABLE users" initDB
    (by decide)).2.2

/-- C6 counterexample: the claim says a URI whose prefix matches no registered
scheme fails with `UnknownResourceScheme`, a distinct error from
`ResourceNotFound`.  On the code server the URI `"db://schema"` matches no
registered scheme (only `code://` is), yet the raised error reads
`"Resource not found: db://schema"` — the resource-not-found wording, whose
kind classifies as `resourceNotFound`, not as a distinct unknown-scheme
error. -/
theorem c6_resource_scheme_cex :
    strStartsWith "db://schema" "code://" = false
    ∧ codeReadResource ⟨[], [], 0⟩ "db://schema"
        = .error "Resource not found: db://schema"
    ∧ resErrKindOf "Resource not found: db://schema"
        = some ResErrKind.resourceNotFound
    ∧ some ResErrKind.resourceNotFound ≠ some ResErrKind.unknownScheme :=
  ⟨rfl, rfl, rfl, by decide⟩

/-- C6 amended: `read_resource` of the document server satisfies the claimed
trichotomy — it returns the content, or fails with a resource-not-found-worded
error when the `doc://` scheme is recognized but the document is absent, or
fails with the distinct unknown-scheme-worded error when the prefix is not
recognized.  The code server returns the content or raises the single
`"Resource not found: {uri}"` error in both failure cases: it has no distinct
unknown-scheme error. -/
theorem c6_resolve_resource_amended :
    (∀ (st : DocState) (uri : String),
      (∃ c, docReadResource st uri = .ok c)
      ∨ (strStartsWith uri "doc://" = true
          ∧ ∃ m, docReadResource st uri = .error m
            ∧ resErrKindOf m = some ResErrKind.resourceNotFound)
      ∨ (strStartsWith uri "doc://" = false
          ∧ ∃ m, docReadResource st uri = .error m
            ∧ resErrKindOf m = some ResErrKind.unknownScheme))
    ∧ (∀ (s : CodeState) (uri : String),
      (∃ c, codeReadResource s uri = .ok c)
      ∨ codeReadResource s uri = .error ("Resource not found: " ++ uri)) := by
  constructor
  · intro st uri
    cases hp : strStartsWith uri "doc://"
    · refine Or.inr (Or.inr ⟨rfl, "Unknown resource URI: " ++ uri, ?_, ?_⟩)
      · simp [docReadResource, hp]
      · unfold resErrKindOf
        rw [strStartsWith_append_eq "Unknown resource URI: " uri
              "Document not found: " (by decide),
            strStartsWith_append_eq "Unknown resource URI: " uri
              "Resource not found: " (by decide),
            strStartsWith_append_eq "Unknown resource URI: " uri
              "Unknown resource URI: " (by decide)]
        decide
    · cases hl : st.files.lookup (pyDrop uri 6) with
      | some c => exact Or.inl ⟨c, by simp [docReadResource, hp, hl]⟩
      | none =>
        refine Or.inr (Or.inl ⟨rfl, "Document not found: " ++ pyDrop uri 6, ?_, ?_⟩)
        · simp [docReadResource, hp, hl]
        · unfold resErrKindOf
          rw [strStartsWith_append_eq "Document not found: " (pyDrop uri 6)
                "Document not found: " (by decide)]
          simp [show strStartsWith "Document not found: " "Document not found: "
            = true from by decide]
  · intro s uri
    cases hp : strStartsWith uri "code://"
    · exact Or.inr (by simp [codeReadResource, hp])
    · cases hl : s.code_store.lookup (pyDrop uri 7) with
      | some c => exact Or.inl ⟨c, by simp [codeReadResource, hp, hl]⟩
      | none => exact Or.inr (by simp [codeReadResource, hp, hl])

/-- C2 counterexample: the claim says every domain-level failure — document
not found among the listed kinds — yields a block whose text begins with an
`Error:` marker.  `read_document` on an absent document returns the successful
single block `"Document 'missing' not found"`, which does not begin with
`Error:` (nor even with `Error`). -/
theorem c2_error_marker_cex :
    docCallTool "read_document" [("name", Value.vstr "missing")] ⟨[], [], 0⟩
      = .ok [⟨"Document 'missing' not found"⟩] (⟨[], [], 0⟩ : DocState).bump
    ∧ strStartsWith "Document 'missing' not found" "Error:" = false
    ∧ strStartsWith "Document 'missing' not found" "Error" = false := by
  decide

/-- C2 amended: every listed domain-level failure is surfaced as a
*successful* dispatch carrying a single text content block, never a
protocol-level fault; the file-not-found, subprocess-timeout and
integrity-violation blocks begin with the literal `Error:` marker, the
engine-raised SQL error begins with `Error` but not `Error:` (it reads
`Error executing query: ...`), and the document-not-found and table-not-found
blocks are plain `... not found` sentences with no `Error` marker at all. -/
theorem c2_domain_failures_in_band
    (interp : String → SpawnedProcess) (engine : SqlEngine)
    (p code n tn q m em : String)
    (cs : CodeState) (ds : DocState) (db : DBState)
    (hp : p ≠ "") (hfp : cs.files.lookup p = none)
    (hcode : code ≠ "") (hdur : 10 < (interp code).duration)
    (hn : n ≠ "") (hnd : ds.files.lookup n = none)
    (htn : tn ≠ "") (htnd : db.schema.lookup tn = none)
    (hq : q ≠ "") (hqa : queryAllowed q = true)
    (heng : engine q db.bump = Except.error m)
    (hem : em ≠ "")
    (hdup : db.users.any (fun r => r.email == Value.vstr em) = true) :
    (codeCallTool interp "read_file" [("file_path", Value.vstr p)] cs
        = .ok [⟨"Error: File not found: " ++ p⟩] cs.bump
      ∧ strStartsWith ("Error: File not found: " ++ p) "Error:" = true)
    ∧ (codeCallTool interp "execute_code" [("code", Value.vstr code)] cs
        = .ok [⟨"Error: Code execution timed out (max 10 seconds)"⟩] cs.bump
      ∧ strStartsWith "Error: Code execution timed out (max 10 seconds)" "Error:"
          = true)
    ∧ (docCallTool "read_document" [("name", Value.vstr n)] ds
        = .ok [⟨"Document '" ++ n ++ "' not found"⟩] ds.bump
      ∧ strStartsWith ("Document '" ++ n ++ "' not found") "Error" = false)
    ∧ (dbCallTool engine "describe_table" [("table_name", Value.vstr tn)] db
        = .ok [⟨"Table '" ++ tn ++ "' not found"⟩] db.bump
      ∧ strStartsWith ("Table '" ++ tn ++ "' not found") "Error" = false)
    ∧ (dbCallTool engine "execute_query" [("query", Value.vstr q)] db
        = .ok [⟨"Error executing query: " ++ m⟩] db.bump
      ∧ strStartsWith ("Error executing query: " ++ m) "Error" = true
      ∧ strStartsWith ("Error executing query: " ++ m) "Error:" = false)
    ∧ (dbCallTool engine "insert_user"
          [("name", Value.vstr "Frank"), ("email", Value.vstr em),
           ("age", Value.vint 1)] db
        = .ok [⟨"Error: UNIQUE constraint failed: users.email"⟩] db.bump
      ∧ strStartsWith "Error: UNIQUE constraint failed: users.email" "Error:"
          = true) := by
  refine ⟨⟨?_, ?_⟩, ⟨?_, by decide⟩, ⟨?_, ?_⟩, ⟨?_, ?_⟩, ⟨?_, ?_, ?_⟩, ⟨?_, by decide⟩⟩
  · simp [codeCallTool, pyGet, List.lookup, Value.truthy, hp, hfp, CodeState.bump]
  · rw [strStartsWith_append_eq "Error: File not found: " p "Error:" (by decide)]
    decide
  · simp [codeCallTool, pyGet, List.lookup, Value.truthy, hcode,
      subprocessRunLimited, hdur]
  · simp [docCallTool, pyGet, List.lookup, Value.truthy, hn, hnd, DocState.bump,
      Value.pyRepr]
  · rw [String.append_assoc,
      strStartsWith_append_eq "Document '" (n ++ "' not found") "Error" (by decide)]
    decide
  · simp [dbCallTool, pyGet, List.lookup, Value.truthy, htn, htnd, DBState.bump,
      Value.pyRepr]
  · rw [String.append_assoc,
      strStartsWith_append_eq "Table '" (tn ++ "' not found") "Error" (by decide)]
    decide
  · simp only [DBState.bump] at heng
    simp [dbCallTool, pyGet, List.lookup, Value.truthy, hq, hqa, heng, DBState.bump]
  · rw [strStartsWith_append_eq "Error executing query: " m "Error" (by decide)]
    decide
  · rw [strStartsWith_append_eq "Error executing query: " m "Error:" (by decide)]
    decide
  · simp [dbCallTool, pyGet, List.lookup, Value.truthy, hem, hdup, DBState.bump]

/-- Witness for the amended C2 at concrete inputs: a missing document and an
engine-raised SQL error on the seeded database. -/
theorem c2_domain_failures_in_band_witness :
    (docCallTool "read_document" [("name", Value.vstr "nodoc")] ⟨[], [], 0⟩
        = .ok [⟨"Document '" ++ "nodoc" ++ "' not found"⟩]
            (⟨[], [], 0⟩ : DocState).bump
      ∧ strStartsWith ("Document '" ++ "nodoc" ++ "' not found") "Error" = false)
    ∧ (dbCallTool engineErr "execute_query"
          [("query", Value.vstr "SELECT * FROM missing")] initDB
        = .ok [⟨"Error executing query: " ++ "no such table: missing"⟩] initDB.bump
      ∧ strStartsWith ("Error executing query: " ++ "no such table: missing")
          "Error" = true
      ∧ strStartsWith ("Error executing query: " ++ "no such table: missing")
          "Error:" = false) :=
  have h := c2_domain_failures_in_band interpSleep15 engineErr
    "missing.txt" "x = 1" "nodoc" "orders" "SELECT * FROM missing"
    "no such table: missing" "alice@example.com"
    ⟨[], [], 0⟩ ⟨[], [], 0⟩ initDB
    (by decide) rfl (by decide) (by decide) (by decide) rfl
    (by decide) (by decide) (by decide) (by decide) rfl
    (by decide) (by decide)
  ⟨h.2.2.1, h.2.2.2.2.1⟩

/-- C4 counterexample: the claim quantifies over every query string and says
rejection is an *in-band* error occurring iff the uppercased, trimmed text
does not start with an allowed verb.  At `q = ""` the uppercased trimmed text
starts with no allowed verb, yet `execute_query` does not return the in-band
gate rejection: the presence check fires first and raises the protocol-level
`ValueError "query is required"` instead. -/
theorem c4_execute_query_empty_cex :
    queryAllowed "" = false
    ∧ dbCallTool engineNoop "execute_query" [("query", Value.vstr "")] initDB
        = .raised "query is required" initDB
    ∧ dbCallTool engineNoop "execute_query" [("query", Value.vstr "")] initDB
        ≠ .ok [⟨sqlGateMsg⟩] initDB.bump := by
  decide
